import Mathlib

/-!
Shallow embedding of the DICOM ingest service (`main.py`, `model.py`,
`schema.py`): the `store_study` per-file pipeline (media-type check, decode,
validation, blob store, pixel-preview extraction, scoring, three-level
catalog upsert, per-file commit) and the `query_study` read endpoint.

Modelling conventions:
- pydicom `ds.get(tag)` results are `Option String` (absent tag ↦ `none`);
  Python truthiness of such a value is `truthy` below (`None` and `""` are
  falsy).
- The decoder (`pydicom.dcmread`) is an external collaborator: each uploaded
  file carries its decode outcome (`Except String Dataset`).
- The scoring HTTP call is an external collaborator: each file carries the
  outcome its one network call would have (`ScoreOutcome`).
- The SQL catalog is a triple of row lists plus a surrogate-key counter;
  SQLAlchemy's `select(...).where(col == v)).first()` is `List.find?` with
  `BEq` on the column value.  Note SQLAlchemy renders a `== None` comparison
  as `IS NULL`, which is exactly `Option.beq`'s `none == none = true`.
- Floats are rationals; numpy `astype('uint8')` on the non-negative
  normalized samples truncates toward zero, i.e. `Int.floor`.
-/

/-- A decoded DICOM dataset: the tag-keyed view `pydicom.dcmread` produces,
restricted to the tags `store_study` reads.  `pixelData` is `none` when
`"PixelData" in ds` is false. -/
structure PixelArray where
  /-- whether `pixel_array.dtype == 'uint8'` already holds -/
  isUint8 : Bool
  /-- the flattened sample values of `ds.pixel_array` -/
  samples : List ℤ
  /-- outcome of the opaque PIL encode/save of this array: `false` models the
  `except` branch of the extraction `try` block -/
  encodeOk : Bool
deriving DecidableEq, Repr

structure Dataset where
  studyID : Option String
  studyDate : Option String
  patientID : Option String
  patientBirthDate : Option String
  patientSex : Option String
  laterality : Option String
  sopInstanceUID : Option String
  patientAge : Option String
  studyInstanceUID : Option String
  pixelData : Option PixelArray
deriving DecidableEq, Repr

/-- Python truthiness of a `ds.get(...)` result: `None` and the empty string
are falsy. -/
def truthy : Option String → Bool
  | none => false
  | some s => !s.isEmpty

/-- Python `f"{value}"` on a `ds.get` result: `None` prints as `"None"`. -/
def pyToString : Option String → String
  | none => "None"
  | some s => s

/-- Outcome of the single scoring-API network call a file would trigger
(`httpx` POST to `SCORING_API_URL`). -/
inductive ScoreOutcome
  /-- `httpx.RequestError` (transport/connection failure) -/
  | transportError
  /-- `response.raise_for_status()` raises (non-success HTTP status) -/
  | httpStatusError
  /-- `response.json()` raises (malformed JSON body) -/
  | badJson
  /-- JSON parses but `scoring_result.get("score")` is `None` -/
  | missingScoreField
  /-- JSON parses and carries the numeric score `s` -/
  | ok (s : ℚ)
deriving DecidableEq, Repr

/-- The four absorbed failure modes of the scoring call. -/
def isScoringFailure : ScoreOutcome → Bool
  | .ok _ => false
  | _ => true

instance {ε α : Type} [DecidableEq ε] [DecidableEq α] : DecidableEq (Except ε α) := fun a b =>
  match a, b with
  | .error e, .error e' =>
    if h : e = e' then .isTrue (by rw [h]) else .isFalse (by intro hc; cases hc; exact h rfl)
  | .error _, .ok _ => .isFalse (by intro hc; cases hc)
  | .ok _, .error _ => .isFalse (by intro hc; cases hc)
  | .ok x, .ok y =>
    if h : x = y then .isTrue (by rw [h]) else .isFalse (by intro hc; cases hc; exact h rfl)

/-- One element of the `files: List[UploadFile]` multipart list, together
with the outcomes of its two external collaborators (decode, scoring). -/
structure UploadFile where
  filename : String
  /-- `file.content_type` -/
  contentType : String
  /-- `await file.read()` -/
  content : List Nat
  /-- result of `pydicom.dcmread` on `content` (`.error msg` = the raised
  exception's message) -/
  decoded : Except String Dataset
  /-- outcome of this file's scoring network call, were one made -/
  scoreOutcome : ScoreOutcome
deriving DecidableEq, Repr

/-- `model.py` Patient row (columns read/written by `store_study`). -/
structure PatientRow where
  patient_key : Nat
  patient_id : Option String
  patient_sex : Option String
  patient_birth_date : Option String
  patient_age : Option String
deriving DecidableEq, Repr

/-- `model.py` Study row. -/
structure StudyRow where
  study_key : Nat
  patient_key : Nat
  study_id : String
  study_uid : Option String
  study_date : Option String
  result : ℤ
deriving DecidableEq, Repr

/-- `model.py` Image row. -/
structure ImageRow where
  image_key : Nat
  study_key : Nat
  image_uid : Option String
  laterality : Option String
  score : Option ℚ
  image_path : String
deriving DecidableEq, Repr

/-- The three tables plus the surrogate-key sequence (`db.flush()` assigns
the next key). -/
structure Catalog where
  patients : List PatientRow
  studies : List StudyRow
  images : List ImageRow
  nextKey : Nat
deriving DecidableEq, Repr

/-- Server-side persistent state: the catalog plus the two blob namespaces
(`storage/dicom` for raw files, `storage/image` for PNG previews).  Blob
directories are association lists keyed by filename. -/
structure ServerState where
  catalog : Catalog
  dicomBlobs : List (String × List Nat)
  imageBlobs : List (String × List ℤ)
deriving DecidableEq, Repr

def lookupBlob {β : Type} (blobs : List (String × β)) (k : String) : Option β :=
  (blobs.find? (fun e => e.1 == k)).map (fun e => e.2)

/-- `os.path.join(DICOM_DIR, filename)` made absolute. -/
def dicomPath (filename : String) : String := "/storage/dicom/" ++ filename

/-- The raw-file write of `store_study`: `if os.path.exists(...): skip
else: write content`.  Returns the new blob directory. -/
def blobPut (k : String) (content : List Nat) (blobs : List (String × List Nat)) :
    List (String × List Nat) :=
  if (lookupBlob blobs k).isSome then blobs else blobs ++ [(k, content)]

/-- The five mandatory metadata fields checked by `store_study`. -/
inductive ReqField
  | studyDate
  | patientID
  | patientBirthDate
  | patientSex
  | laterality
deriving DecidableEq, Repr, Fintype

/-- The tag text used in the corresponding error message of `main.py`
(the stray space in the StudyDate tag is in the source). -/
def ReqField.tagText : ReqField → String
  | .studyDate => "StudyDate (0008, 0020)"
  | .patientID => "PatientID (0010,0020)"
  | .patientBirthDate => "PatientBirthDate (0010,0030)"
  | .patientSex => "PatientSex (0010,0040)"
  | .laterality => "Laterality (0020,0060)"

/-- The dataset value of a mandatory field. -/
def Dataset.reqField (ds : Dataset) : ReqField → Option String
  | .studyDate => ds.studyDate
  | .patientID => ds.patientID
  | .patientBirthDate => ds.patientBirthDate
  | .patientSex => ds.patientSex
  | .laterality => ds.laterality

/-- The `HTTPException`s `store_study` can raise for a file, with the data
interpolated into their `detail` strings. -/
inductive IngestError
  /-- 415: `file.content_type != "application/dicom"` -/
  | unsupportedMediaType (filename : String)
  /-- 400: `pydicom.dcmread` raised -/
  | invalidDicom (filename : String) (msg : String)
  /-- 400: StudyID absent/empty or different from the path parameter -/
  | mismatchedStudyID (filename : String) (pathStudyId : String) (dcmStudyId : Option String)
  /-- 400: a mandatory field is absent or empty -/
  | missingField (field : ReqField) (filename : String)
deriving DecidableEq, Repr

/-- The checks `store_study` performs on one file before touching any
storage: media type, decode, StudyID match, the five mandatory fields, in
source order. -/
def validateFile (studyId : String) (f : UploadFile) : Except IngestError Dataset :=
  if f.contentType != "application/dicom" then
    .error (.unsupportedMediaType f.filename)
  else
    match f.decoded with
    | .error msg => .error (.invalidDicom f.filename msg)
    | .ok ds =>
      if !truthy ds.studyID || ds.studyID != some studyId then
        .error (.mismatchedStudyID f.filename studyId ds.studyID)
      else if !truthy ds.studyDate then .error (.missingField .studyDate f.filename)
      else if !truthy ds.patientID then .error (.missingField .patientID f.filename)
      else if !truthy ds.patientBirthDate then .error (.missingField .patientBirthDate f.filename)
      else if !truthy ds.patientSex then .error (.missingField .patientSex f.filename)
      else if !truthy ds.laterality then .error (.missingField .laterality f.filename)
      else .ok ds

/-- `pixel_array.min()` (0 only for the empty array, which numpy rejects). -/
def listMin : List ℤ → ℤ
  | [] => 0
  | x :: xs => xs.foldl min x

/-- `pixel_array.max()`. -/
def listMax : List ℤ → ℤ
  | [] => 0
  | x :: xs => xs.foldl max x

/-- One sample of `((pixel_array - min) / (max - min) * 255).astype('uint8')`:
float arithmetic is ℚ, and `astype('uint8')` truncates the non-negative
result toward zero, i.e. `Int.floor`. -/
def normalizeSample (mn mx v : ℤ) : ℤ :=
  ⌊((v : ℚ) - (mn : ℚ)) / ((mx : ℚ) - (mn : ℚ)) * 255⌋

/-- The non-uint8 rescaling branch of the pixel extraction, over the array's
observed min and max. -/
def normalizeArray (xs : List ℤ) : List ℤ :=
  xs.map (normalizeSample (listMin xs) (listMax xs))

/-- `os.path.join(IMAGE_DIR, ...)` made absolute. -/
def imagePath (filename : String) : String := "/storage/image/" ++ filename

/-- The preview save (`pil_image.save`) overwrites unconditionally:
association-list update with shadowing. -/
def putOverwrite {β : Type} (k : String) (v : β) (blobs : List (String × β)) :
    List (String × β) :=
  (k, v) :: blobs.eraseP (fun e => e.1 == k)

/-- The `PixelData` extraction block of `store_study`: no pixel payload or a
PIL failure yields no preview; otherwise the (possibly normalized) samples
are encoded (the opaque PNG encode is modelled by the sample list itself),
stored under `{uid}.png`, and returned for scoring. -/
def extractPreview (ds : Dataset) (uidStr : String) (imageBlobs : List (String × List ℤ)) :
    Option (List ℤ) × List (String × List ℤ) :=
  match ds.pixelData with
  | none => (none, imageBlobs)
  | some pa =>
    if pa.encodeOk then
      let arr := if pa.isUint8 then pa.samples else normalizeArray pa.samples
      (some arr, putOverwrite (uidStr ++ ".png") arr imageBlobs)
    else (none, imageBlobs)

/-- The scoring block of `store_study`.  Returns the score that ends up in
`image_score` and whether a network call was made.  With no preview bytes the
default 0.0 applies and no call is made; with a preview, every failure
outcome is absorbed to 0.0. -/
def runScoring (preview : Option (List ℤ)) (outcome : ScoreOutcome) : ℚ × Bool :=
  match preview with
  | none => (0, false)
  | some _ =>
    match outcome with
    | .ok s => (s, true)
    | _ => (0, true)

/-- `# Patient` block: find by `patient_id`, else create and flush. -/
def upsertPatient (ds : Dataset) (c : Catalog) : PatientRow × Catalog :=
  match c.patients.find? (fun p => p.patient_id == ds.patientID) with
  | some p => (p, c)
  | none =>
    let p : PatientRow :=
      { patient_key := c.nextKey
        patient_id := ds.patientID
        patient_sex := ds.patientSex
        patient_birth_date := ds.patientBirthDate
        patient_age := ds.patientAge }
    (p, { c with patients := c.patients ++ [p], nextKey := c.nextKey + 1 })

/-- `# Study` block: find by `study_id` (the path parameter), else create
linked to the Patient from the previous step. -/
def upsertStudy (studyId : String) (ds : Dataset) (patientKey : Nat) (c : Catalog) :
    StudyRow × Catalog :=
  match c.studies.find? (fun s => s.study_id == studyId) with
  | some s => (s, c)
  | none =>
    let s : StudyRow :=
      { study_key := c.nextKey
        patient_key := patientKey
        study_id := studyId
        study_uid := ds.studyInstanceUID
        study_date := ds.studyDate
        result := 0 }
    (s, { c with studies := c.studies ++ [s], nextKey := c.nextKey + 1 })

/-- The ORM mutation `image.score = image_score` on the row `.first()`
found: update the first row whose `image_uid` matches. -/
def updateScore (uid : Option String) (s : ℚ) : List ImageRow → List ImageRow
  | [] => []
  | r :: rs =>
    if r.image_uid == uid then { r with score := some s } :: rs
    else r :: updateScore uid s rs

/-- `# Image` block: find by `image_uid`; if found update only its score and
return its key; else create linked to the Study and return the new key. -/
def upsertImage (ds : Dataset) (score : ℚ) (path : String) (studyKey : Nat) (c : Catalog) :
    Catalog × Nat :=
  match c.images.find? (fun i => i.image_uid == ds.sopInstanceUID) with
  | some img =>
    ({ c with images := updateScore ds.sopInstanceUID score c.images }, img.image_key)
  | none =>
    let img : ImageRow :=
      { image_key := c.nextKey
        study_key := studyKey
        image_uid := ds.sopInstanceUID
        laterality := ds.laterality
        score := some score
        image_path := path }
    ({ c with images := c.images ++ [img], nextKey := c.nextKey + 1 }, img.image_key)

/-- The three-level catalog upsert run for one file, in source order. -/
def upsertCatalog (studyId : String) (ds : Dataset) (score : ℚ) (path : String)
    (c : Catalog) : Catalog × Nat :=
  let pc := upsertPatient ds c
  let sc := upsertStudy studyId ds pc.1.patient_key pc.2
  upsertImage ds score path sc.1.study_key sc.2

/-- One element of the `stored_files` response array. -/
structure StoredFileInfo where
  image_key : Nat
  file_name : String
  score : ℚ
deriving DecidableEq, Repr

/-- Everything `store_study` does for one validated file (blob put, preview
extraction, scoring, catalog upsert), producing the committed state and the
response entry. -/
def processValidated (studyId : String) (f : UploadFile) (ds : Dataset)
    (st : ServerState) : ServerState × StoredFileInfo :=
  let filename := pyToString ds.sopInstanceUID ++ ".dcm"
  let path := dicomPath filename
  let dicomBlobs := blobPut filename f.content st.dicomBlobs
  let pv := extractPreview ds (pyToString ds.sopInstanceUID) st.imageBlobs
  let sc := runScoring pv.1 f.scoreOutcome
  let ck := upsertCatalog studyId ds sc.1 path st.catalog
  (⟨ck.1, dicomBlobs, pv.2⟩,
   { image_key := ck.2, file_name := filename, score := sc.1 })

/-- One iteration of the `for file in files` loop of `store_study`. -/
def storeFile (studyId : String) (f : UploadFile) (st : ServerState) :
    Except IngestError (ServerState × StoredFileInfo) :=
  match validateFile studyId f with
  | .error e => .error e
  | .ok ds => .ok (processValidated studyId f ds st)

/-- The whole `store_study` endpoint body: files strictly in list order,
each file committed before the next begins; the first failing file raises,
keeping every earlier commit.  Returns the persisted state after the request
together with the response (or the raised error). -/
def store_study (studyId : String) (st : ServerState) :
    List UploadFile → ServerState × Except IngestError (List StoredFileInfo)
  | [] => (st, .ok [])
  | f :: fs =>
    match storeFile studyId f st with
    | .error e => (st, .error e)
    | .ok p =>
      match store_study studyId p.1 fs with
      | (stF, .ok infos) => (stF, .ok (p.2 :: infos))
      | (stF, .error e) => (stF, .error e)

/-! ### The read endpoint `query_study` and the pydantic projection

`query_study` finds the Study by `study_id` (404 when absent), then runs
`StudySchema.model_validate(study)` with `from_attributes = True`: pydantic
reads one attribute per declared schema field off the ORM instance, and a
declared field with no corresponding attribute makes validation raise.  The
field and attribute name lists below are transcribed from `schema.py` and
`model.py`. -/

/-- Fields `PatientSchema` declares (`schema.py`). -/
def patientSchemaFieldNames : List String :=
  ["patient_key", "patient_id", "patient_sex", "patient_birth_date", "patient_age",
   "created_date"]

/-- Attributes a `Patient` ORM instance exposes: its columns and its
relationship (`model.py`). -/
def patientRowAttrNames : List String :=
  ["patient_key", "patient_id", "patient_sex", "patient_birth_date", "patient_age",
   "created_date", "studies"]

/-- Fields `ImageSchema` declares (`schema.py`). -/
def imageSchemaFieldNames : List String :=
  ["image_key", "image_uid", "laterality", "score", "image_path", "created_date",
   "updated_date"]

/-- Attributes an `Image` ORM instance exposes (`model.py`). -/
def imageRowAttrNames : List String :=
  ["image_key", "study_key", "image_uid", "laterality", "score", "image_path",
   "created_date", "study"]

/-- Fields `StudySchema` declares (`schema.py`). -/
def studySchemaFieldNames : List String :=
  ["study_key", "study_id", "study_uid", "study_date", "result", "created_date",
   "updated_date", "patient", "images"]

/-- Attributes a `Study` ORM instance exposes (`model.py`). -/
def studyRowAttrNames : List String :=
  ["study_key", "patient_key", "study_id", "study_uid", "study_date", "result",
   "created_date", "patient", "images"]

/-- `from_attributes` validation succeeds iff every declared schema field has
a matching attribute on the instance. -/
def modelValidateOk (required attrs : List String) : Bool :=
  required.all (fun n => attrs.contains n)

/-- Whether `StudySchema.model_validate(study)` can succeed: the study's own
fields and the nested `patient` and `images` models must all validate. -/
def studyValidateOk : Bool :=
  modelValidateOk patientSchemaFieldNames patientRowAttrNames &&
  modelValidateOk imageSchemaFieldNames imageRowAttrNames &&
  modelValidateOk studySchemaFieldNames studyRowAttrNames

/-- The Study projection the spec says the query endpoints return. -/
structure StudyProjection where
  studyKey : Nat
  studyId : String
  studyUid : Option String
  studyDate : Option String
  result : ℤ
  patient : Option PatientRow
  images : List ImageRow
deriving DecidableEq, Repr

/-- Failures of the read endpoint: 500 on a database error, 404 on a missing
study, and the pydantic `ValidationError` escaping `query_study` when the
schema requires attributes the ORM rows do not have. -/
inductive QueryError
  | notFound (studyId : String)
  | validationFailed
deriving DecidableEq, Repr

/-- The data `selectinload(Study.patient)` / `selectinload(Study.images)`
attach to a found Study row. -/
def buildProjection (c : Catalog) (s : StudyRow) : StudyProjection :=
  { studyKey := s.study_key
    studyId := s.study_id
    studyUid := s.study_uid
    studyDate := s.study_date
    result := s.result
    patient := c.patients.find? (fun p => p.patient_key == s.patient_key)
    images := c.images.filter (fun i => i.study_key == s.study_key) }

/-- The `GET /dicom-web/study/{study_id}` endpoint body: find the Study
(404 when none), then `StudySchema.model_validate` the loaded row. -/
def query_study (studyId : String) (st : ServerState) : Except QueryError StudyProjection :=
  match st.catalog.studies.find? (fun s => s.study_id == studyId) with
  | none => .error (.notFound studyId)
  | some s =>
    if studyValidateOk then .ok (buildProjection st.catalog s)
    else .error .validationFailed

/-! ### Concrete example values used by the witnesses -/

/-- A well-formed decoded dataset (no pixel payload). -/
def exDs : Dataset :=
  { studyID := some "S1"
    studyDate := some "20240101"
    patientID := some "P1"
    patientBirthDate := some "19800101"
    patientSex := some "M"
    laterality := some "L"
    sopInstanceUID := some "1.2.3"
    patientAge := some "044Y"
    studyInstanceUID := some "9.8.7"
    pixelData := none }

/-- A well-formed upload of `exDs` whose scoring call would hit a transport
error. -/
def exFile : UploadFile :=
  { filename := "a.dcm"
    contentType := "application/dicom"
    content := [1, 2, 3]
    decoded := .ok exDs
    scoreOutcome := .transportError }

/-- The state right after startup: empty catalog, empty blob stores. -/
def emptyState : ServerState :=
  { catalog := { patients := [], studies := [], images := [], nextKey := 1 }
    dicomBlobs := []
    imageBlobs := [] }

/-- A reachable catalog holding one Patient, one Study and one Image: the
state after ingesting `exFile` into `emptyState`. -/
def exC9State : ServerState :=
  { catalog :=
      { patients := [{ patient_key := 1, patient_id := some "P1", patient_sex := some "M",
                       patient_birth_date := some "19800101", patient_age := some "044Y" }]
        studies := [{ study_key := 2, patient_key := 1, study_id := "S1",
                      study_uid := some "9.8.7", study_date := some "20240101", result := 0 }]
        images := [{ image_key := 3, study_key := 2, image_uid := some "1.2.3",
                     laterality := some "L", score := some 0,
                     image_path := "/storage/dicom/1.2.3.dcm" }]
        nextKey := 4 }
    dicomBlobs := [("1.2.3.dcm", [1, 2, 3])]
    imageBlobs := [] }

/-- `exDs` with the Laterality tag absent. -/
def exDsNoLat : Dataset := { exDs with laterality := none }

/-- An upload of `exDsNoLat`: well-formed except for the missing Laterality. -/
def exFileNoLat : UploadFile := { exFile with filename := "b.dcm", decoded := .ok exDsNoLat }

/-- An upload with the wrong declared media type. -/
def exBadFile : UploadFile :=
  { filename := "bad.dcm"
    contentType := "text/plain"
    content := []
    decoded := .error "not dicom"
    scoreOutcome := .transportError }

/-- `exDs` with no SOPInstanceUID, carried by a second distinct file. -/
def exDsNoUid : Dataset := { exDs with sopInstanceUID := none }

/-- First upload lacking SOPInstanceUID. -/
def exFileNoUid1 : UploadFile :=
  { exFile with filename := "c.dcm", content := [4, 5], decoded := .ok exDsNoUid }

/-- Second, distinct upload lacking SOPInstanceUID. -/
def exFileNoUid2 : UploadFile :=
  { exFile with filename := "d.dcm", content := [6, 7, 8], decoded := .ok exDsNoUid }

/-! ### Helper lemmas -/

theorem find?_decomp {α : Type} {p : α → Bool} {l : List α} {a : α}
    (h : l.find? p = some a) :
    ∃ l₁ l₂, l = l₁ ++ a :: l₂ ∧ ∀ x ∈ l₁, p x = false := by
  induction l with
  | nil => simp [List.find?] at h
  | cons b bs ih =>
    cases hb : p b with
    | true =>
      rw [List.find?_cons, hb] at h
      obtain rfl : b = a := by simpa using h
      exact ⟨[], bs, rfl, by simp⟩
    | false =>
      rw [List.find?_cons, hb] at h
      obtain ⟨l₁, l₂, hl, hcl⟩ := ih h
      refine ⟨b :: l₁, l₂, by rw [hl]; rfl, ?_⟩
      intro x hx
      rcases List.mem_cons.mp hx with hx | hx
      · exact hx ▸ hb
      · exact hcl x hx

theorem updateScore_of_first {uid : Option String} {s : ℚ} {l₁ l₂ : List ImageRow}
    {r : ImageRow} (h₁ : ∀ x ∈ l₁, (x.image_uid == uid) = false)
    (h₂ : (r.image_uid == uid) = true) :
    updateScore uid s (l₁ ++ r :: l₂) = l₁ ++ { r with score := some s } :: l₂ := by
  induction l₁ with
  | nil => simp [updateScore, h₂]
  | cons x xs ih =>
    have hx : (x.image_uid == uid) = false := h₁ x (by simp)
    simp only [List.cons_append, updateScore, hx, Bool.false_eq_true, if_false,
      List.append_eq]
    rw [ih (fun y hy => h₁ y (List.mem_cons_of_mem x hy))]

theorem updateScore_countP (uid uid' : Option String) (s : ℚ) (l : List ImageRow) :
    (updateScore uid s l).countP (fun x => x.image_uid == uid')
      = l.countP (fun x => x.image_uid == uid') := by
  induction l with
  | nil => rfl
  | cons r rs ih =>
    cases h : r.image_uid == uid with
    | true => simp [updateScore, h, List.countP_cons]
    | false => simp [updateScore, h, List.countP_cons, ih]

theorem upsertPatient_snd_studies (ds : Dataset) (c : Catalog) :
    (upsertPatient ds c).2.studies = c.studies := by
  unfold upsertPatient
  cases c.patients.find? (fun p => p.patient_id == ds.patientID) <;> rfl

theorem upsertPatient_snd_images (ds : Dataset) (c : Catalog) :
    (upsertPatient ds c).2.images = c.images := by
  unfold upsertPatient
  cases c.patients.find? (fun p => p.patient_id == ds.patientID) <;> rfl

theorem upsertStudy_snd_images (studyId : String) (ds : Dataset) (pk : Nat) (c : Catalog) :
    (upsertStudy studyId ds pk c).2.images = c.images := by
  unfold upsertStudy
  cases c.studies.find? (fun s => s.study_id == studyId) <;> rfl

theorem upsertStudy_found {studyId : String} {c : Catalog} {s0 : StudyRow}
    (ds : Dataset) (pk : Nat)
    (h : c.studies.find? (fun s => s.study_id == studyId) = some s0) :
    upsertStudy studyId ds pk c = (s0, c) := by
  unfold upsertStudy
  rw [h]

theorem upsertImage_fst_studies (ds : Dataset) (sc : ℚ) (path : String) (sk : Nat)
    (c : Catalog) : (upsertImage ds sc path sk c).1.studies = c.studies := by
  unfold upsertImage
  cases c.images.find? (fun i => i.image_uid == ds.sopInstanceUID) <;> rfl

theorem upsertImage_found {ds : Dataset} {c : Catalog} {img : ImageRow}
    (sc : ℚ) (path : String) (sk : Nat)
    (h : c.images.find? (fun i => i.image_uid == ds.sopInstanceUID) = some img) :
    upsertImage ds sc path sk c
      = ({ c with images := updateScore ds.sopInstanceUID sc c.images }, img.image_key) := by
  unfold upsertImage
  rw [h]

theorem upsertImage_not_found {ds : Dataset} {c : Catalog}
    (sc : ℚ) (path : String) (sk : Nat)
    (h : c.images.find? (fun i => i.image_uid == ds.sopInstanceUID) = none) :
    upsertImage ds sc path sk c
      = ({ c with
            images := c.images ++
              [{ image_key := c.nextKey, study_key := sk, image_uid := ds.sopInstanceUID,
                 laterality := ds.laterality, score := some sc, image_path := path }],
            nextKey := c.nextKey + 1 }, c.nextKey) := by
  unfold upsertImage
  rw [h]

theorem upsertCatalog_eq (studyId : String) (ds : Dataset) (sc : ℚ) (path : String)
    (c : Catalog) :
    upsertCatalog studyId ds sc path c
      = upsertImage ds sc path
          (upsertStudy studyId ds (upsertPatient ds c).1.patient_key
            (upsertPatient ds c).2).1.study_key
          (upsertStudy studyId ds (upsertPatient ds c).1.patient_key
            (upsertPatient ds c).2).2 := rfl

theorem upsertCatalog_mid_images (studyId : String) (ds : Dataset) (c : Catalog)
    (pk : Nat) :
    (upsertStudy studyId ds pk (upsertPatient ds c).2).2.images = c.images := by
  rw [upsertStudy_snd_images, upsertPatient_snd_images]

theorem upsertCatalog_of_image_found {ds : Dataset} {c : Catalog} {img : ImageRow}
    (studyId : String) (sc : ℚ) (path : String)
    (h : c.images.find? (fun i => i.image_uid == ds.sopInstanceUID) = some img) :
    (upsertCatalog studyId ds sc path c).1.images
        = updateScore ds.sopInstanceUID sc c.images
      ∧ (upsertCatalog studyId ds sc path c).2 = img.image_key := by
  rw [upsertCatalog_eq]
  rw [upsertImage_found sc path _ (by rw [upsertCatalog_mid_images]; exact h)]
  constructor
  · show updateScore ds.sopInstanceUID sc _ = _
    rw [upsertCatalog_mid_images]
  · rfl

theorem upsertCatalog_of_image_not_found {ds : Dataset} {c : Catalog}
    (studyId : String) (sc : ℚ) (path : String)
    (h : c.images.find? (fun i => i.image_uid == ds.sopInstanceUID) = none) :
    ∃ sk k, (upsertCatalog studyId ds sc path c).1.images
        = c.images ++
            [{ image_key := k, study_key := sk, image_uid := ds.sopInstanceUID,
               laterality := ds.laterality, score := some sc, image_path := path }]
      ∧ (upsertCatalog studyId ds sc path c).2 = k := by
  have hmid := upsertCatalog_mid_images studyId ds c (upsertPatient ds c).1.patient_key
  rw [upsertCatalog_eq]
  rw [upsertImage_not_found sc path _ (by rw [hmid]; exact h)]
  refine ⟨(upsertStudy studyId ds (upsertPatient ds c).1.patient_key
            (upsertPatient ds c).2).1.study_key,
          (upsertStudy studyId ds (upsertPatient ds c).1.patient_key
            (upsertPatient ds c).2).2.nextKey, ?_, rfl⟩
  show (upsertStudy studyId ds (upsertPatient ds c).1.patient_key
          (upsertPatient ds c).2).2.images ++ _ = _
  rw [hmid]

theorem upsertCatalog_result_row (studyId : String) (ds : Dataset) (sc : ℚ)
    (path : String) (c : Catalog) :
    ∃ r ∈ (upsertCatalog studyId ds sc path c).1.images,
      r.image_key = (upsertCatalog studyId ds sc path c).2 ∧ r.score = some sc := by
  cases h : c.images.find? (fun i => i.image_uid == ds.sopInstanceUID) with
  | some img =>
    obtain ⟨himg, hkey⟩ := upsertCatalog_of_image_found studyId sc path h
    obtain ⟨l₁, l₂, hdec, hcl⟩ := find?_decomp h
    have hpr : (img.image_uid == ds.sopInstanceUID) = true := by
      have := List.find?_some h
      simpa using this
    refine ⟨{ img with score := some sc }, ?_, by rw [hkey], rfl⟩
    rw [himg, hdec, updateScore_of_first (fun x hx => hcl x hx) hpr]
    exact List.mem_append_right l₁ (List.mem_cons_self _ _)
  | none =>
    obtain ⟨sk, k, himg, hkey⟩ := upsertCatalog_of_image_not_found studyId sc path h
    refine ⟨{ image_key := k, study_key := sk, image_uid := ds.sopInstanceUID,
              laterality := ds.laterality, score := some sc, image_path := path },
            ?_, by rw [hkey], rfl⟩
    rw [himg]
    exact List.mem_append_right c.images (List.mem_cons_self _ _)

theorem storeFile_of_validate {studyId : String} {f : UploadFile} {ds : Dataset}
    (st : ServerState) (h : validateFile studyId f = .ok ds) :
    storeFile studyId f st = .ok (processValidated studyId f ds st) := by
  unfold storeFile
  rw [h]

theorem lookupBlob_blobPut_preserve {bl : List (String × List Nat)} {k : String}
    {b : List Nat} (k' : String) (c : List Nat)
    (h : lookupBlob bl k = some b) : lookupBlob (blobPut k' c bl) k = some b := by
  unfold blobPut
  split
  · exact h
  · obtain ⟨e, hfe, he⟩ : ∃ e, bl.find? (fun x => x.1 == k) = some e ∧ e.2 = b := by
      unfold lookupBlob at h
      cases hf : bl.find? (fun x => x.1 == k) with
      | none => rw [hf] at h; simp at h
      | some e => rw [hf] at h; exact ⟨e, rfl, by simpa using h⟩
    unfold lookupBlob
    rw [List.find?_append, hfe]
    simp [Option.or, he]

theorem processValidated_dicomBlobs (studyId : String) (f : UploadFile) (ds : Dataset)
    (st : ServerState) :
    (processValidated studyId f ds st).1.dicomBlobs
      = blobPut (pyToString ds.sopInstanceUID ++ ".dcm") f.content st.dicomBlobs := rfl

theorem storeFile_ok_inv {studyId : String} {f : UploadFile} {st st' : ServerState}
    {info : StoredFileInfo} (h : storeFile studyId f st = .ok (st', info)) :
    ∃ ds, validateFile studyId f = .ok ds
      ∧ st' = (processValidated studyId f ds st).1
      ∧ info = (processValidated studyId f ds st).2 := by
  unfold storeFile at h
  cases hv : validateFile studyId f with
  | error e => rw [hv] at h; cases h
  | ok ds =>
    rw [hv] at h
    injection h with h
    have h1 : (processValidated studyId f ds st).1 = st' := by rw [h]
    have h2 : (processValidated studyId f ds st).2 = info := by rw [h]
    exact ⟨ds, rfl, h1.symm, h2.symm⟩

/-! ### The claims -/

/-- Claim C6: for a pixel array whose element type is not 8-bit unsigned, the
preview extraction maps each sample `v` to within ±1 of
`round((v − min) / (max − min) × 255)` over the array's observed min and max
(the code truncates the float toward zero, which the claim's ±1
rounding-mode tolerance covers); in particular on the array with observed
min 10 and max 20 the sample 15 maps to 127 = 128 ± 1. -/
theorem C6_pixel_normalization :
    (∀ v mn mx : ℤ, |normalizeSample mn mx v
        - round (((v : ℚ) - (mn : ℚ)) / ((mx : ℚ) - (mn : ℚ)) * 255)| ≤ 1)
    ∧ normalizeArray [10, 15, 20] = [0, 127, 255]
    ∧ |(127 : ℤ) - 128| ≤ 1 := by
  refine ⟨?_, ?_, by decide⟩
  · intro v mn mx
    set x : ℚ := ((v : ℚ) - (mn : ℚ)) / ((mx : ℚ) - (mn : ℚ)) * 255 with hx
    have h1 : ⌊x⌋ ≤ round x := by
      rw [round_eq]
      exact Int.floor_le_floor (by linarith)
    have h2 : round x ≤ ⌊x⌋ + 1 := by
      rw [round_eq]
      have hstep : ⌊x + 1 / 2⌋ ≤ ⌊x + 1⌋ := Int.floor_le_floor (by linarith)
      have hone : ⌊x + 1⌋ = ⌊x⌋ + 1 := by
        exact_mod_cast Int.floor_add_one x
      omega
    rw [normalizeSample, ← hx, abs_le]
    omega
  · simp only [normalizeArray, listMin, listMax, normalizeSample, List.map,
      List.foldl]
    norm_num [Int.floor_eq_iff]

/-- Claim C8: a blob-store put under an instance-identifier key is a no-op
when a blob already exists under that key (the directory, hence the stored
bytes, are unchanged), writes a new blob otherwise, and never overwrites a
stored blob — including through a whole successful file ingest. -/
theorem C8_blob_write_once :
    (∀ (k : String) (content : List Nat) (blobs : List (String × List Nat))
        (b : List Nat), lookupBlob blobs k = some b → blobPut k content blobs = blobs)
    ∧ (∀ (k : String) (content : List Nat) (blobs : List (String × List Nat)),
        lookupBlob blobs k = none → blobPut k content blobs = blobs ++ [(k, content)])
    ∧ (∀ (k : String) (content : List Nat) (blobs : List (String × List Nat))
        (b : List Nat), lookupBlob blobs k = some b →
          lookupBlob (blobPut k content blobs) k = some b)
    ∧ (∀ (studyId : String) (f : UploadFile) (st st' : ServerState)
        (info : StoredFileInfo) (k : String) (b : List Nat),
        storeFile studyId f st = .ok (st', info) →
        lookupBlob st.dicomBlobs k = some b → lookupBlob st'.dicomBlobs k = some b) := by
  refine ⟨?_, ?_, ?_, ?_⟩
  · intro k content blobs b h
    simp [blobPut, h]
  · intro k content blobs h
    simp [blobPut, h]
  · intro k content blobs b h
    exact lookupBlob_blobPut_preserve k content h
  · intro studyId f st st' info k b hsf hb
    obtain ⟨ds, hv, hst, hinfo⟩ := storeFile_ok_inv hsf
    rw [hst, processValidated_dicomBlobs]
    exact lookupBlob_blobPut_preserve _ f.content hb

theorem C8_witness :
    lookupBlob [("1.2.3.dcm", [1, 2, 3])] "1.2.3.dcm" = some [1, 2, 3]
    ∧ blobPut "1.2.3.dcm" [9, 9] [("1.2.3.dcm", [1, 2, 3])] = [("1.2.3.dcm", [1, 2, 3])] :=
  ⟨by decide, C8_blob_write_once.1 "1.2.3.dcm" [9, 9] [("1.2.3.dcm", [1, 2, 3])]
    [1, 2, 3] (by decide)⟩

/-- Claim C9 (code bug): the claim says get-by-study-identifier returns the
Study projection (with `updatedDate` on the study and each image) and 404 on
a missing study.  The 404 half holds, but on every stored Study the code
raises instead of returning the projection: `StudySchema` and `ImageSchema`
(schema.py) require an `updated_date` attribute that the `Study` and `Image`
ORM rows (model.py) do not have, so `StudySchema.model_validate(study)` can
never succeed.  This theorem evaluates the code at the failing input: the
reachable one-study catalog `exC9State`, left after ingesting one well-formed
file. -/
theorem C9_query_projection_bug :
    query_study "S1" exC9State = .error .validationFailed
    ∧ query_study "S2" exC9State = .error (.notFound "S2")
    ∧ studySchemaFieldNames.contains "updated_date" = true
    ∧ studyRowAttrNames.contains "updated_date" = false
    ∧ imageSchemaFieldNames.contains "updated_date" = true
    ∧ imageRowAttrNames.contains "updated_date" = false
    ∧ studyValidateOk = false
    ∧ (exC9State.catalog.studies.find? (fun s => s.study_id == "S1")).isSome = true := by
  refine ⟨?_, by decide, by decide, by decide, by decide, by decide, by decide, by decide⟩
  decide

/-- Claim C2: the scoring step never propagates a failure.  With no preview
bytes the score is 0.0 and no network call is made; with preview bytes, each
of the four failure outcomes (transport error, non-success HTTP status,
malformed JSON, missing numeric score field) is absorbed to 0.0; and through
a whole ingested file with no pixel payload or a failing scoring call, the
returned entry and the persisted Image row both carry score 0.0. -/
theorem C2_scoring_failures_absorbed :
    (∀ outcome : ScoreOutcome, runScoring none outcome = (0, false))
    ∧ (∀ (preview : Option (List ℤ)) (outcome : ScoreOutcome),
        isScoringFailure outcome = true → (runScoring preview outcome).1 = 0)
    ∧ (∀ (studyId : String) (f : UploadFile) (ds : Dataset) (st : ServerState),
        validateFile studyId f = .ok ds →
        (ds.pixelData = none ∨ isScoringFailure f.scoreOutcome = true) →
        ∃ st' info, storeFile studyId f st = .ok (st', info)
          ∧ info.score = 0
          ∧ ∃ r ∈ st'.catalog.images, r.image_key = info.image_key ∧ r.score = some 0) := by
  refine ⟨fun _ => rfl, ?_, ?_⟩
  · intro preview outcome hfail
    cases preview with
    | none => rfl
    | some bytes => cases outcome <;> first | rfl | cases hfail
  · intro studyId f ds st hv habs
    refine ⟨(processValidated studyId f ds st).1, (processValidated studyId f ds st).2,
      storeFile_of_validate st hv, ?_, ?_⟩
    · show (runScoring (extractPreview ds (pyToString ds.sopInstanceUID) st.imageBlobs).1
          f.scoreOutcome).1 = 0
      rcases habs with hpix | hfail
      · rw [show extractPreview ds (pyToString ds.sopInstanceUID) st.imageBlobs
            = (none, st.imageBlobs) from by rw [extractPreview, hpix]]
        rfl
      · cases hpv : (extractPreview ds (pyToString ds.sopInstanceUID) st.imageBlobs).1 with
        | none => rfl
        | some bytes => cases hout : f.scoreOutcome <;> simp_all [runScoring, isScoringFailure]
    · have hscore : (processValidated studyId f ds st).2.score
          = (runScoring (extractPreview ds (pyToString ds.sopInstanceUID) st.imageBlobs).1
              f.scoreOutcome).1 := rfl
      have h0 : (runScoring (extractPreview ds (pyToString ds.sopInstanceUID) st.imageBlobs).1
          f.scoreOutcome).1 = 0 := by
        rcases habs with hpix | hfail
        · rw [show extractPreview ds (pyToString ds.sopInstanceUID) st.imageBlobs
              = (none, st.imageBlobs) from by rw [extractPreview, hpix]]
          rfl
        · cases hpv : (extractPreview ds (pyToString ds.sopInstanceUID) st.imageBlobs).1 with
          | none => rfl
          | some bytes => cases hout : f.scoreOutcome <;> simp_all [runScoring, isScoringFailure]
      obtain ⟨r, hr, hrk, hrs⟩ := upsertCatalog_result_row studyId ds
        ((runScoring (extractPreview ds (pyToString ds.sopInstanceUID) st.imageBlobs).1
            f.scoreOutcome).1)
        (dicomPath (pyToString ds.sopInstanceUID ++ ".dcm")) st.catalog
      refine ⟨r, hr, ?_, ?_⟩
      · rw [hrk]; rfl
      · rw [hrs, h0]

theorem C2_witness :
    ∃ st' info, storeFile "S1" exFile emptyState = .ok (st', info)
      ∧ info.score = 0
      ∧ ∃ r ∈ st'.catalog.images, r.image_key = info.image_key ∧ r.score = some 0 :=
  C2_scoring_failures_absorbed.2.2 "S1" exFile exDs emptyState rfl (Or.inl rfl)

theorem processValidated_catalog (studyId : String) (f : UploadFile) (ds : Dataset)
    (st : ServerState) :
    (processValidated studyId f ds st).1.catalog
      = (upsertCatalog studyId ds
          ((runScoring (extractPreview ds (pyToString ds.sopInstanceUID) st.imageBlobs).1
              f.scoreOutcome).1)
          (dicomPath (pyToString ds.sopInstanceUID ++ ".dcm")) st.catalog).1 := rfl

theorem processValidated_image_key (studyId : String) (f : UploadFile) (ds : Dataset)
    (st : ServerState) :
    (processValidated studyId f ds st).2.image_key
      = (upsertCatalog studyId ds
          ((runScoring (extractPreview ds (pyToString ds.sopInstanceUID) st.imageBlobs).1
              f.scoreOutcome).1)
          (dicomPath (pyToString ds.sopInstanceUID ++ ".dcm")) st.catalog).2 := rfl

theorem upsertCatalog_studies_found {studyId : String} {c : Catalog} {s : StudyRow}
    (ds : Dataset) (sc : ℚ) (path : String)
    (hmem : s ∈ c.studies) (hsid : s.study_id = studyId) :
    (upsertCatalog studyId ds sc path c).1.studies = c.studies := by
  rw [upsertCatalog_eq, upsertImage_fst_studies]
  cases hf : (upsertPatient ds c).2.studies.find? (fun x => x.study_id == studyId) with
  | none =>
    exfalso
    rw [upsertPatient_snd_studies] at hf
    have := List.find?_eq_none.mp hf s hmem
    simp [hsid] at this
  | some s0 =>
    rw [upsertStudy_found ds _ hf, upsertPatient_snd_studies]

/-- Claim C4: for every catalog state and ingested file, if a Study row with
the file's study_id already exists then the ingest leaves the whole Study
table — in particular that Study's `patient_key` link — unchanged, whatever
Patient the ingested file references. -/
theorem C4_study_patient_link_fixed :
    ∀ (studyId : String) (f : UploadFile) (st st' : ServerState)
      (info : StoredFileInfo) (s : StudyRow),
      s ∈ st.catalog.studies → s.study_id = studyId →
      storeFile studyId f st = .ok (st', info) →
      st'.catalog.studies = st.catalog.studies
      ∧ ∃ s' ∈ st'.catalog.studies, s'.study_key = s.study_key
          ∧ s'.patient_key = s.patient_key := by
  intro studyId f st st' info s hmem hsid hsf
  obtain ⟨ds, hv, hst, hinfo⟩ := storeFile_ok_inv hsf
  have hstud : st'.catalog.studies = st.catalog.studies := by
    rw [hst, processValidated_catalog]
    exact upsertCatalog_studies_found ds _ _ hmem hsid
  exact ⟨hstud, s, by rw [hstud]; exact hmem, rfl, rfl⟩

theorem C4_witness :
    (processValidated "S1" exFile exDs exC9State).1.catalog.studies
        = exC9State.catalog.studies
    ∧ ∃ s' ∈ (processValidated "S1" exFile exDs exC9State).1.catalog.studies,
        s'.study_key = 2 ∧ s'.patient_key = 1 :=
  C4_study_patient_link_fixed "S1" exFile exC9State
    (processValidated "S1" exFile exDs exC9State).1
    (processValidated "S1" exFile exDs exC9State).2
    { study_key := 2, patient_key := 1, study_id := "S1", study_uid := some "9.8.7",
      study_date := some "20240101", result := 0 }
    (by decide) rfl rfl

/-- Claim C5: when the ingested file's image_uid matches an existing Image
row, the catalog upsert updates only that row's score: the row keeps its
image_path, its owning study_key, its laterality, its image_uid and its key,
and every other Image row is untouched. -/
theorem C5_image_update_only_score :
    ∀ (studyId : String) (f : UploadFile) (ds : Dataset) (st : ServerState)
      (r : ImageRow),
      validateFile studyId f = .ok ds →
      st.catalog.images.find? (fun i => i.image_uid == ds.sopInstanceUID) = some r →
      ∃ st' info l₁ l₂ r',
        storeFile studyId f st = .ok (st', info)
        ∧ st.catalog.images = l₁ ++ r :: l₂
        ∧ st'.catalog.images = l₁ ++ r' :: l₂
        ∧ r'.score = some info.score
        ∧ r'.image_path = r.image_path
        ∧ r'.study_key = r.study_key
        ∧ r'.laterality = r.laterality
        ∧ r'.image_uid = r.image_uid
        ∧ r'.image_key = r.image_key
        ∧ info.image_key = r.image_key := by
  intro studyId f ds st r hv hfind
  obtain ⟨l₁, l₂, hdec, hcl⟩ := find?_decomp hfind
  have hpr : (r.image_uid == ds.sopInstanceUID) = true := by
    have := List.find?_some hfind
    simpa using this
  obtain ⟨himg, hkey⟩ := upsertCatalog_of_image_found studyId
    ((runScoring (extractPreview ds (pyToString ds.sopInstanceUID) st.imageBlobs).1
        f.scoreOutcome).1)
    (dicomPath (pyToString ds.sopInstanceUID ++ ".dcm")) hfind
  refine ⟨(processValidated studyId f ds st).1, (processValidated studyId f ds st).2,
    l₁, l₂,
    { r with score := some ((runScoring
        (extractPreview ds (pyToString ds.sopInstanceUID) st.imageBlobs).1
        f.scoreOutcome).1) },
    storeFile_of_validate st hv, hdec, ?_, rfl, rfl, rfl, rfl, rfl, rfl, ?_⟩
  · show (processValidated studyId f ds st).1.catalog.images = _
    rw [processValidated_catalog, himg, hdec,
      updateScore_of_first (fun x hx => hcl x hx) hpr]
  · rw [processValidated_image_key, hkey]

theorem C5_witness :
    ∃ st' info l₁ l₂ r',
      storeFile "S1" exFile exC9State = .ok (st', info)
      ∧ exC9State.catalog.images = l₁ ++
          ({ image_key := 3, study_key := 2, image_uid := some "1.2.3",
             laterality := some "L", score := some 0,
             image_path := "/storage/dicom/1.2.3.dcm" } : ImageRow) :: l₂
      ∧ st'.catalog.images = l₁ ++ r' :: l₂
      ∧ r'.score = some info.score
      ∧ r'.image_path = "/storage/dicom/1.2.3.dcm"
      ∧ r'.study_key = 2
      ∧ r'.laterality = some "L"
      ∧ r'.image_uid = some "1.2.3"
      ∧ r'.image_key = 3
      ∧ info.image_key = 3 :=
  C5_image_update_only_score "S1" exFile exDs exC9State
    { image_key := 3, study_key := 2, image_uid := some "1.2.3",
      laterality := some "L", score := some 0,
      image_path := "/storage/dicom/1.2.3.dcm" }
    rfl (by decide)

/-- Claim C3: for each of the five mandatory fields, a file that has a
matching StudyID but in which exactly that field is absent or empty is
rejected with the MissingField error naming the field and the file, no
Patient, Study or Image row is written for it (the state is returned
unchanged), and no later file of the batch is processed. -/
theorem C3_missing_field_rejection :
    ∀ (fld : ReqField) (studyId : String) (f : UploadFile) (ds : Dataset)
      (st : ServerState) (rest : List UploadFile),
      f.contentType = "application/dicom" →
      f.decoded = .ok ds →
      ds.studyID = some studyId →
      truthy ds.studyID = true →
      truthy (ds.reqField fld) = false →
      (∀ fld' : ReqField, fld' ≠ fld → truthy (ds.reqField fld') = true) →
      storeFile studyId f st = .error (.missingField fld f.filename)
      ∧ store_study studyId st (f :: rest) = (st, .error (.missingField fld f.filename)) := by
  intro fld studyId f ds st rest hct hdec hsid hstru hfld hother
  have hstru' : truthy (some studyId) = true := by rw [← hsid]; exact hstru
  suffices hsf : storeFile studyId f st = .error (.missingField fld f.filename) by
    exact ⟨hsf, by simp [store_study, hsf]⟩
  cases fld with
  | studyDate =>
    simp only [Dataset.reqField] at hfld
    simp [storeFile, validateFile, hct, hdec, hsid, hstru', hfld]
  | patientID =>
    simp only [Dataset.reqField] at hfld
    have h1 := hother .studyDate (by decide)
    simp only [Dataset.reqField] at h1
    simp [storeFile, validateFile, hct, hdec, hsid, hstru', hfld, h1]
  | patientBirthDate =>
    simp only [Dataset.reqField] at hfld
    have h1 := hother .studyDate (by decide)
    have h2 := hother .patientID (by decide)
    simp only [Dataset.reqField] at h1 h2
    simp [storeFile, validateFile, hct, hdec, hsid, hstru', hfld, h1, h2]
  | patientSex =>
    simp only [Dataset.reqField] at hfld
    have h1 := hother .studyDate (by decide)
    have h2 := hother .patientID (by decide)
    have h3 := hother .patientBirthDate (by decide)
    simp only [Dataset.reqField] at h1 h2 h3
    simp [storeFile, validateFile, hct, hdec, hsid, hstru', hfld, h1, h2, h3]
  | laterality =>
    simp only [Dataset.reqField] at hfld
    have h1 := hother .studyDate (by decide)
    have h2 := hother .patientID (by decide)
    have h3 := hother .patientBirthDate (by decide)
    have h4 := hother .patientSex (by decide)
    simp only [Dataset.reqField] at h1 h2 h3 h4
    simp [storeFile, validateFile, hct, hdec, hsid, hstru', hfld, h1, h2, h3, h4]

theorem C3_witness :
    storeFile "S1" exFileNoLat emptyState
        = .error (.missingField .laterality "b.dcm")
    ∧ store_study "S1" emptyState [exFileNoLat, exFile]
        = (emptyState, .error (.missingField .laterality "b.dcm")) :=
  C3_missing_field_rejection .laterality "S1" exFileNoLat exDsNoLat emptyState
    [exFile] rfl rfl rfl rfl rfl (by decide)

/-- Claim C7: in an ordered batch, if a file fails its media-type check,
decode or validation, the request returns with the state reached after the
last successfully committed file: no file at or after the failing position
contributes any catalog row, and every Patient, Study and Image row
committed for earlier files of the batch is still present. -/
theorem C7_batch_failfast_partial_commit :
    ∀ (studyId : String) (pre : List UploadFile) (f : UploadFile)
      (rest : List UploadFile) (st st₁ : ServerState)
      (infos : List StoredFileInfo) (e : IngestError),
      store_study studyId st pre = (st₁, .ok infos) →
      storeFile studyId f st₁ = .error e →
      store_study studyId st (pre ++ f :: rest) = (st₁, .error e)
      ∧ (∀ p ∈ st₁.catalog.patients,
          p ∈ (store_study studyId st (pre ++ f :: rest)).1.catalog.patients)
      ∧ (∀ s ∈ st₁.catalog.studies,
          s ∈ (store_study studyId st (pre ++ f :: rest)).1.catalog.studies)
      ∧ (∀ i ∈ st₁.catalog.images,
          i ∈ (store_study studyId st (pre ++ f :: rest)).1.catalog.images) := by
  intro studyId pre f rest st st₁ infos e hpre hf
  have main : store_study studyId st (pre ++ f :: rest) = (st₁, .error e) := by
    induction pre generalizing st infos with
    | nil =>
      simp only [store_study] at hpre
      obtain ⟨h1, -⟩ := Prod.mk.inj hpre
      subst h1
      simp [store_study, hf]
    | cons g gs ih =>
      rw [List.cons_append]
      cases hg : storeFile studyId g st with
      | error e' =>
        simp only [store_study, hg] at hpre
        exact absurd (congrArg Prod.snd hpre) (by simp)
      | ok p =>
        simp only [store_study, hg] at hpre
        rcases hrec : store_study studyId p.1 gs with ⟨stF, res⟩
        cases res with
        | error e'' =>
          simp only [hrec] at hpre
          exact absurd (congrArg Prod.snd hpre) (by simp)
        | ok is =>
          simp only [hrec] at hpre
          obtain ⟨h1, h2⟩ := Prod.mk.inj hpre
          simp only [store_study, hg]
          rw [ih p.1 is (by rw [hrec, h1])]
  refine ⟨main, ?_, ?_, ?_⟩ <;> rw [main] <;> exact fun _ h => h

theorem C7_witness :
    store_study "S1" emptyState [exFile, exBadFile, exFile]
        = ((processValidated "S1" exFile exDs emptyState).1,
           .error (.unsupportedMediaType "bad.dcm")) :=
  (C7_batch_failfast_partial_commit "S1" [exFile] exBadFile [exFile] emptyState
    (processValidated "S1" exFile exDs emptyState).1
    [(processValidated "S1" exFile exDs emptyState).2]
    (.unsupportedMediaType "bad.dcm") rfl rfl).1

theorem lookupBlob_blobPut_self {bl : List (String × List Nat)} {k : String}
    (c : List Nat) (h : lookupBlob bl k = none) :
    lookupBlob (blobPut k c bl) k = some c := by
  have hf : bl.find? (fun x => x.1 == k) = none := by
    cases hf : bl.find? (fun x => x.1 == k) with
    | none => rfl
    | some e =>
      unfold lookupBlob at h
      rw [hf] at h
      cases h
  unfold blobPut
  rw [if_neg (by rw [h]; simp)]
  unfold lookupBlob
  rw [List.find?_append, hf]
  simp

/-- Ingesting two validated files carrying the same instance identifier into
a catalog with no Image row for that identifier: the first creates the one
Image row, the second finds it, both calls return the same image key, and
exactly one row with that identifier exists afterwards. -/
theorem storeFile_twice_dedup :
    ∀ (studyId : String) (f₁ f₂ : UploadFile) (ds₁ ds₂ : Dataset) (st : ServerState),
      validateFile studyId f₁ = .ok ds₁ →
      validateFile studyId f₂ = .ok ds₂ →
      ds₂.sopInstanceUID = ds₁.sopInstanceUID →
      st.catalog.images.countP (fun i => i.image_uid == ds₁.sopInstanceUID) = 0 →
      ∃ st₁ i₁ st₂ i₂,
        storeFile studyId f₁ st = .ok (st₁, i₁)
        ∧ storeFile studyId f₂ st₁ = .ok (st₂, i₂)
        ∧ i₁.image_key = i₂.image_key
        ∧ (∃ r ∈ st₁.catalog.images, r.image_key = i₁.image_key
            ∧ r.image_uid = ds₁.sopInstanceUID)
        ∧ st₂.catalog.images.countP (fun i => i.image_uid == ds₁.sopInstanceUID) = 1 := by
  intro studyId f₁ f₂ ds₁ ds₂ st hv₁ hv₂ hsop hcount
  have hfind0 : st.catalog.images.find? (fun i => i.image_uid == ds₁.sopInstanceUID)
      = none :=
    List.find?_eq_none.mpr (List.countP_eq_zero.mp hcount)
  obtain ⟨sk, k, himg1, hkey1⟩ := upsertCatalog_of_image_not_found studyId
    ((runScoring (extractPreview ds₁ (pyToString ds₁.sopInstanceUID) st.imageBlobs).1
        f₁.scoreOutcome).1)
    (dicomPath (pyToString ds₁.sopInstanceUID ++ ".dcm")) hfind0
  set newRow : ImageRow :=
    { image_key := k, study_key := sk, image_uid := ds₁.sopInstanceUID,
      laterality := ds₁.laterality,
      score := some ((runScoring
        (extractPreview ds₁ (pyToString ds₁.sopInstanceUID) st.imageBlobs).1
        f₁.scoreOutcome).1),
      image_path := dicomPath (pyToString ds₁.sopInstanceUID ++ ".dcm") } with hnew
  have himgSt1 : (processValidated studyId f₁ ds₁ st).1.catalog.images
      = st.catalog.images ++ [newRow] := by
    rw [processValidated_catalog]
    exact himg1
  have hprNew : (newRow.image_uid == ds₁.sopInstanceUID) = true := by
    rw [hnew]
    simp
  have hfind1 : (processValidated studyId f₁ ds₁ st).1.catalog.images.find?
      (fun i => i.image_uid == ds₂.sopInstanceUID) = some newRow := by
    rw [hsop, himgSt1, List.find?_append, hfind0]
    simp [List.find?_cons, hprNew]
  obtain ⟨himg2, hkey2⟩ := upsertCatalog_of_image_found studyId
    ((runScoring (extractPreview ds₂ (pyToString ds₂.sopInstanceUID)
        (processValidated studyId f₁ ds₁ st).1.imageBlobs).1 f₂.scoreOutcome).1)
    (dicomPath (pyToString ds₂.sopInstanceUID ++ ".dcm")) hfind1
  refine ⟨(processValidated studyId f₁ ds₁ st).1, (processValidated studyId f₁ ds₁ st).2,
    (processValidated studyId f₂ ds₂ (processValidated studyId f₁ ds₁ st).1).1,
    (processValidated studyId f₂ ds₂ (processValidated studyId f₁ ds₁ st).1).2,
    storeFile_of_validate st hv₁, storeFile_of_validate _ hv₂, ?_, ?_, ?_⟩
  · rw [processValidated_image_key, hkey1, processValidated_image_key, hkey2]
  · refine ⟨newRow, ?_, ?_, rfl⟩
    · rw [himgSt1]
      exact List.mem_append_right _ (List.mem_cons_self _ _)
    · rw [processValidated_image_key, hkey1]
  · rw [processValidated_catalog, himg2, updateScore_countP, himgSt1,
      List.countP_append, hcount]
    simp [List.countP_cons, hprNew]

/-- Claim C1: ingesting the same well-formed file twice returns the same
image_key on both calls, and afterwards the catalog contains exactly one
Image row whose image_uid equals the file's instance identifier. -/
theorem C1_idempotent_reingest :
    ∀ (studyId : String) (f : UploadFile) (ds : Dataset) (st : ServerState),
      validateFile studyId f = .ok ds →
      st.catalog.images.countP (fun i => i.image_uid == ds.sopInstanceUID) = 0 →
      ∃ st₁ i₁ st₂ i₂,
        storeFile studyId f st = .ok (st₁, i₁)
        ∧ storeFile studyId f st₁ = .ok (st₂, i₂)
        ∧ i₁.image_key = i₂.image_key
        ∧ st₂.catalog.images.countP (fun i => i.image_uid == ds.sopInstanceUID) = 1 := by
  intro studyId f ds st hv hcount
  obtain ⟨st₁, i₁, st₂, i₂, h1, h2, hk, -, hc⟩ :=
    storeFile_twice_dedup studyId f f ds ds st hv hv rfl hcount
  exact ⟨st₁, i₁, st₂, i₂, h1, h2, hk, hc⟩

theorem C1_witness :
    ∃ st₁ i₁ st₂ i₂,
      storeFile "S1" exFile emptyState = .ok (st₁, i₁)
      ∧ storeFile "S1" exFile st₁ = .ok (st₂, i₂)
      ∧ i₁.image_key = i₂.image_key
      ∧ st₂.catalog.images.countP (fun i => i.image_uid == exDs.sopInstanceUID) = 1 :=
  C1_idempotent_reingest "S1" exFile exDs emptyState rfl rfl

/-- Claim C10: a file that passes validation but has no SOPInstanceUID is
not rejected; it is ingested with an absent image_uid, its blob is stored
under the filename derived from the absent value (`None.dcm`), and any
further such file deduplicates into that same single Image row (the
SQLAlchemy lookup `image_uid == None` renders as `IS NULL` and finds it),
returning the same image key. -/
theorem C10_absent_sop_uid_dedup :
    ∀ (studyId : String) (f₁ f₂ : UploadFile) (ds₁ ds₂ : Dataset) (st : ServerState),
      validateFile studyId f₁ = .ok ds₁ → ds₁.sopInstanceUID = none →
      validateFile studyId f₂ = .ok ds₂ → ds₂.sopInstanceUID = none →
      st.catalog.images.countP (fun i => i.image_uid == (none : Option String)) = 0 →
      lookupBlob st.dicomBlobs "None.dcm" = none →
      ∃ st₁ i₁ st₂ i₂,
        storeFile studyId f₁ st = .ok (st₁, i₁)
        ∧ storeFile studyId f₂ st₁ = .ok (st₂, i₂)
        ∧ i₁.file_name = "None.dcm"
        ∧ i₂.file_name = "None.dcm"
        ∧ lookupBlob st₁.dicomBlobs "None.dcm" = some f₁.content
        ∧ (∃ r ∈ st₁.catalog.images, r.image_key = i₁.image_key ∧ r.image_uid = none)
        ∧ i₂.image_key = i₁.image_key
        ∧ st₂.catalog.images.countP
            (fun i => i.image_uid == (none : Option String)) = 1 := by
  intro studyId f₁ f₂ ds₁ ds₂ st hv₁ hs₁ hv₂ hs₂ hcount hblob
  obtain ⟨st₁, i₁, st₂, i₂, h1, h2, hk, hr, hc⟩ :=
    storeFile_twice_dedup studyId f₁ f₂ ds₁ ds₂ st hv₁ hv₂ (by rw [hs₁, hs₂])
      (by rw [hs₁]; exact hcount)
  obtain ⟨ds₁', hva₁, hst₁, hi₁⟩ := storeFile_ok_inv h1
  have hds₁ : ds₁' = ds₁ := by
    have h := hva₁.symm.trans hv₁
    injection h with h'
  have hsopA : ds₁'.sopInstanceUID = none := by rw [hds₁, hs₁]
  obtain ⟨ds₂', hva₂, hst₂, hi₂⟩ := storeFile_ok_inv h2
  have hds₂ : ds₂' = ds₂ := by
    have h := hva₂.symm.trans hv₂
    injection h with h'
  have hsopB : ds₂'.sopInstanceUID = none := by rw [hds₂, hs₂]
  have hfn₁ : i₁.file_name = "None.dcm" := by
    rw [hi₁]
    show pyToString ds₁'.sopInstanceUID ++ ".dcm" = "None.dcm"
    rw [hsopA]
    decide
  have hfn₂ : i₂.file_name = "None.dcm" := by
    rw [hi₂]
    show pyToString ds₂'.sopInstanceUID ++ ".dcm" = "None.dcm"
    rw [hsopB]
    decide
  have hbl : lookupBlob st₁.dicomBlobs "None.dcm" = some f₁.content := by
    rw [hst₁, processValidated_dicomBlobs,
      show pyToString ds₁'.sopInstanceUID ++ ".dcm" = "None.dcm" from by
        rw [hsopA]
        decide]
    exact lookupBlob_blobPut_self f₁.content hblob
  refine ⟨st₁, i₁, st₂, i₂, h1, h2, hfn₁, hfn₂, hbl, ?_, hk.symm, ?_⟩
  · obtain ⟨r, hrm, hrk, hru⟩ := hr
    exact ⟨r, hrm, hrk, by rw [hru, hs₁]⟩
  · rw [← hs₁]
    exact hc

theorem C10_witness :
    ∃ st₁ i₁ st₂ i₂,
      storeFile "S1" exFileNoUid1 emptyState = .ok (st₁, i₁)
      ∧ storeFile "S1" exFileNoUid2 st₁ = .ok (st₂, i₂)
      ∧ i₁.file_name = "None.dcm"
      ∧ i₂.file_name = "None.dcm"
      ∧ lookupBlob st₁.dicomBlobs "None.dcm" = some [4, 5]
      ∧ (∃ r ∈ st₁.catalog.images, r.image_key = i₁.image_key ∧ r.image_uid = none)
      ∧ i₂.image_key = i₁.image_key
      ∧ st₂.catalog.images.countP
          (fun i => i.image_uid == (none : Option String)) = 1 :=
  C10_absent_sop_uid_dedup "S1" exFileNoUid1 exFileNoUid2 exDsNoUid exDsNoUid
    emptyState rfl rfl rfl rfl rfl rfl
